import Mathlib

/-!
Verification of pytest-shell-utilities behaviour claims.

This file shallowly embeds the relevant parts of the repository
(`pytestshellutils/utils/processes.py`, `pytestshellutils/customtypes.py`,
`pytestshellutils/shell.py`) as executable Lean definitions and proves
theorems about them.  Python values that can appear in parsed JSON are
modelled by the inductive type `PSU.Json`; Python truthiness, membership
(`in`) and subscription (`d[k]`) are modelled explicitly, with `Except Unit`
standing for a raised exception.  External library functions (`json.loads`,
`pprint.pformat`, process termination effects, wall-clock time) are taken as
parameters of the embedded functions, so all theorems quantify over them.
-/

namespace PSU

/-- A parsed JSON value, the possible results of Python `json.loads`. -/
inductive Json where
  | null : Json
  | bool : Bool → Json
  | num : Int → Json
  | str : String → Json
  | arr : List Json → Json
  | obj : List (String × Json) → Json
deriving Inhabited

mutual

/-- Boolean equality on parsed JSON values. -/
def Json.beq : Json → Json → Bool
  | .null, .null => true
  | .bool a, .bool b => a == b
  | .num a, .num b => a == b
  | .str a, .str b => a == b
  | .arr a, .arr b => Json.beqList a b
  | .obj a, .obj b => Json.beqKV a b
  | _, _ => false

/-- Boolean equality on lists of parsed JSON values. -/
def Json.beqList : List Json → List Json → Bool
  | [], [] => true
  | x :: xs, y :: ys => Json.beq x y && Json.beqList xs ys
  | _, _ => false

/-- Boolean equality on key/value lists of parsed JSON values. -/
def Json.beqKV : List (String × Json) → List (String × Json) → Bool
  | [], [] => true
  | x :: xs, y :: ys => x.1 == y.1 && Json.beq x.2 y.2 && Json.beqKV xs ys
  | _, _ => false

end

instance : BEq Json := ⟨Json.beq⟩

/-- Python truthiness of a parsed JSON value (`if data:`). -/
def Json.truthy : Json → Bool
  | .null => false
  | .bool b => b
  | .num n => n != 0
  | .str s => s != ""
  | .arr xs => !xs.isEmpty
  | .obj kvs => !kvs.isEmpty

/-- Drop leading whitespace characters from a character list. -/
def dropLeadingWs : List Char → List Char
  | [] => []
  | c :: cs => if c.isWhitespace then dropLeadingWs cs else c :: cs

/-- Python `str.strip()`: remove leading and trailing whitespace. -/
def pyStrip (s : String) : String :=
  ⟨(dropLeadingWs (dropLeadingWs s.toList).reverse).reverse⟩

/-- Prefix test on character lists, used to model Python substring search. -/
def chListPre : List Char → List Char → Bool
  | [], _ => true
  | _ :: _, [] => false
  | a :: as, b :: bs => a == b && chListPre as bs

/-- Substring test on character lists (`needle` occurs inside `hay`). -/
def chListSub (needle : List Char) : List Char → Bool
  | [] => needle.isEmpty
  | c :: rest => chListPre needle (c :: rest) || chListSub needle rest

/-- Lookup of a key in an association list modelling a Python dict. -/
def dictLookup (kvs : List (String × Json)) (k : String) : Option Json :=
  match kvs with
  | [] => none
  | kv :: rest => if kv.1 == k then some kv.2 else dictLookup rest k

/-- Python `k in data` on a parsed JSON value: key membership for dicts,
element membership for lists, substring for strings; a `TypeError`
(modelled as `Except.error`) for every other value. -/
def Json.hasMember : Json → String → Except Unit Bool
  | .obj kvs, k => .ok ((dictLookup kvs k).isSome)
  | .arr xs, k => .ok (xs.contains (.str k))
  | .str s, k => .ok (chListSub k.toList s.toList)
  | .null, _ => .error ()
  | .bool _, _ => .error ()
  | .num _, _ => .error ()

/-- Python `data[k]` with a string key: dict lookup (`KeyError` when the key
is absent); a `TypeError` (modelled as `Except.error`) on every non-dict. -/
def Json.subscript : Json → String → Except Unit Json
  | .obj kvs, k =>
    match dictLookup kvs k with
    | some v => .ok v
    | none => .error ()
  | _, _ => .error ()

/-! ### `ProcessResult._default_data`
(`src/pytestshellutils/utils/processes.py`, lines 99-113)

```python
stdout: Optional[str] = self.stdout.strip() if self.stdout else None
if stdout:
    try:
        data: Optional[Dict[Any, Any]] = json.loads(stdout.strip())
        if data and self.data_key and self.data_key in data:
            data = data[self.data_key]
        return data
    except ValueError:
        pass
return None
```

`json.loads` is modelled by a parameter `parse : String → Option Json`
(`none` = the `ValueError` that the `except` clause swallows).  The
`TypeError` that `self.data_key in data` or `data[self.data_key]` can raise
is *not* caught by `except ValueError`, hence the result type
`Except Unit (Option Json)`. -/

/-- Embedding of `ProcessResult._default_data`. -/
def default_data (parse : String → Option Json) (stdout : String)
    (data_key : Option String) : Except Unit (Option Json) :=
  let s := pyStrip stdout
  if s ≠ "" then
    match parse (pyStrip s) with
    | none => .ok none
    | some data =>
      if data.truthy then
        match data_key with
        | some k =>
          if k ≠ "" then
            match data.hasMember k with
            | .error e => .error e
            | .ok true =>
              match data.subscript k with
              | .error e => .error e
              | .ok v => .ok (some v)
            | .ok false => .ok (some data)
          else .ok (some data)
        | none => .ok (some data)
      else .ok (some data)
  else .ok none

/-- Full `ProcessResult` record (`processes.py`, lines 56-113). -/
structure ProcessResult where
  returncode : Int
  stdout : String
  stderr : String
  cmdline : Option (List String) := none
  data_key : Option String := none
  data : Option Json := none
deriving Inhabited

/-- Construction of a `ProcessResult` without an explicit `data` override:
`data` is filled in by `_default_data`, and any exception that
`_default_data` raises escapes the constructor. -/
def ProcessResult.construct (parse : String → Option Json) (returncode : Int)
    (stdout stderr : String) (cmdline : Option (List String))
    (data_key : Option String) : Except Unit ProcessResult :=
  match default_data parse stdout data_key with
  | .error e => .error e
  | .ok d => .ok ⟨returncode, stdout, stderr, cmdline, data_key, d⟩

/-! ### `Callback.__call__` (`src/pytestshellutils/customtypes.py`, lines 75-83)

```python
_args = tuple(list(args) + list(self.args or ()))
_kwargs = copy.deepcopy(self.kwargs)
_kwargs.update(kwargs)
log.debug(...)
return self.func(*_args, **_kwargs)
```

`self.args` and `self.kwargs` default to `None`.  `copy.deepcopy(None)` is
`None`, and `None.update(...)` raises `AttributeError`, modelled as
`Except.error`.  The wrapped function is abstracted by its name; a call is
recorded as the argument tuple and keyword dict it receives. -/

/-- Python `dict.update`: existing keys keep their position and take the new
value, new keys are appended in order. -/
def dictUpdate (base upd : List (String × Json)) : List (String × Json) :=
  base.map (fun kv =>
    match dictLookup upd kv.1 with
    | some v => (kv.1, v)
    | none => kv)
  ++ upd.filter (fun kv => (dictLookup base kv.1).isNone)

/-- A stored callback: wrapped function name plus captured defaults, with
the attrs defaults `args=None`, `kwargs=None`. -/
structure Callback where
  func : String
  args : Option (List Json) := none
  kwargs : Option (List (String × Json)) := none

/-- The invocation a `Callback` finally performs on its wrapped function. -/
structure CallRecord where
  func : String
  args : List Json
  kwargs : List (String × Json)

/-- Embedding of `Callback.__call__`: merge the call-time arguments with the
captured defaults and invoke the wrapped function, or raise. -/
def Callback.call (cb : Callback) (args : List Json)
    (kwargs : List (String × Json)) : Except Unit CallRecord :=
  let merged := args ++ (match cb.args with
    | some l => l
    | none => [])
  match cb.kwargs with
  | none => .error ()
  | some base => .ok ⟨cb.func, merged, dictUpdate base kwargs⟩

/-- A concrete stand-in for `json.loads` that agrees with it on the input
`"5"` (a bare JSON number). -/
def parseNum5 : String → Option Json :=
  fun s => if s = "5" then some (.num 5) else none

/-- A concrete stand-in for `json.loads` that agrees with it on the JSON
object text `{"a": 1}`. -/
def parseObjA : String → Option Json :=
  fun s => if s = "\x7b\"a\": 1\x7d" then some (.obj [("a", .num 1)]) else none

/-! ### `ProcessResult.__str__` (`processes.py`, lines 147-165)

```python
message = self.__class__.__name__
if self.cmdline:
    message += f"\n Command Line: {self.cmdline}"
if self.returncode is not None:
    message += f"\n Returncode: {self.returncode}"
if (self.stdout and self.stdout.strip()) or (self.stderr and self.stderr.strip()):
    message += "\n Process Output:"
if self.stdout and self.stdout.strip():
    message += f"\n   >>>>> STDOUT >>>>>\n{self.stdout}\n   <<<<< STDOUT <<<<<"
if self.stderr and self.stderr.strip():
    message += f"\n   >>>>> STDERR >>>>>\n{self.stderr}\n   <<<<< STDERR <<<<<"
if self.data:
    message += "\n Parsed JSON Data:\n"
    message += "\n".join(f"   {line}" for line in pprint.pformat(self.data).splitlines())
return message + "\n"
```

`pprint.pformat(...).splitlines()` is modelled by a parameter
`pformatLines : Json → List String` giving the pretty-printed lines.
`returncode` is validated to be an `int`, so `self.returncode is not None`
is always true.  The f-string rendering of the `cmdline` list is Python's
list `repr`. -/

/-- Python `repr` of a list of strings, as interpolated by the f-string
`f"\n Command Line: {self.cmdline}"`. -/
def pyStrListRepr (l : List String) : String :=
  "[" ++ String.intercalate ", " (l.map (fun s => "\x27" ++ s ++ "\x27")) ++ "]"

/-- Embedding of `ProcessResult.__str__`. -/
def ProcessResult.render (pformatLines : Json → List String)
    (r : ProcessResult) : String :=
  let m0 := "ProcessResult"
  let m1 := m0 ++ (match r.cmdline with
    | some c => if !c.isEmpty then "\n Command Line: " ++ pyStrListRepr c else ""
    | none => "")
  let m2 := m1 ++ ("\n Returncode: " ++ toString r.returncode)
  let m3 := m2 ++ (if pyStrip r.stdout ≠ "" || pyStrip r.stderr ≠ "" then "\n Process Output:" else "")
  let m4 := m3 ++ (if pyStrip r.stdout ≠ "" then
    "\n   >>>>> STDOUT >>>>>\n" ++ r.stdout ++ "\n   <<<<< STDOUT <<<<<" else "")
  let m5 := m4 ++ (if pyStrip r.stderr ≠ "" then
    "\n   >>>>> STDERR >>>>>\n" ++ r.stderr ++ "\n   <<<<< STDERR <<<<<" else "")
  let m6 := m5 ++ (match r.data with
    | some d =>
      if d.truthy then
        "\n Parsed JSON Data:\n" ++
          String.intercalate "\n" ((pformatLines d).map (fun line => "   " ++ line))
      else ""
    | none => "")
  m6 ++ "\n"

/-! ### `terminate_process_list` (`processes.py`, lines 292-354)

The effect of one `_terminate_process_list(...)` mutation pass followed by
`psutil.wait_procs(..., timeout=5, ...)` is abstracted by a parameter
`step : Bool → Bool → List P → List P` mapping the `kill` / `slow_stop`
flags and the current process list to the list of processes that remain in
it afterwards (`wait_procs` never mutates the list; only
`_terminate_process_list` removes entries).  The wrapper's control flow —
pid deduplication, up to three escalating rounds, the 5-second wait after
each round, and the final warning — is embedded exactly. -/

/-- One applied round of `terminate_process_list`: the flags passed to
`_terminate_process_list` and the `wait_procs` timeout that follows it. -/
structure TermRound where
  kill : Bool
  slowStop : Bool
  waitTimeout : Nat
deriving DecidableEq, Repr

/-- Outcome of `terminate_process_list`: the rounds that were applied in
order, the processes still in the list at the end, and whether the final
warning was logged.  The function always returns (it never raises). -/
structure TermOutcome (P : Type) where
  rounds : List TermRound
  remaining : List P
  warned : Bool
deriving Repr

/-- Pid-deduplication loop at the top of `terminate_process_list`: drop any
process whose pid was already seen, keeping first occurrences. -/
def dedupByPid {P : Type} (pid : P → Nat) : List P → List Nat → List P
  | [], _ => []
  | p :: rest, seen =>
    if pid p ∈ seen then dedupByPid pid rest (seen ++ [pid p])
    else p :: dedupByPid pid rest (seen ++ [pid p])

/-- Embedding of `terminate_process_list`. -/
def terminate_process_list {P : Type} (pid : P → Nat)
    (step : Bool → Bool → List P → List P) (process_list : List P)
    (kill slow_stop : Bool) : TermOutcome P :=
  let l0 := dedupByPid pid process_list []
  let l1 := step kill slow_stop l0
  if !l1.isEmpty then
    let l2 := step (!slow_stop) slow_stop l1
    if !l2.isEmpty then
      let l3 := step true false l2
      { rounds := [⟨kill, slow_stop, 5⟩, ⟨!slow_stop, slow_stop, 5⟩, ⟨true, false, 5⟩],
        remaining := l3, warned := !l3.isEmpty }
    else
      { rounds := [⟨kill, slow_stop, 5⟩, ⟨!slow_stop, slow_stop, 5⟩],
        remaining := [], warned := false }
  else
    { rounds := [⟨kill, slow_stop, 5⟩], remaining := [], warned := false }

/-! ### `DaemonImpl.start` (`shell.py`, lines 683-799)

The attempt loop is embedded at attempt granularity: whether attempt `i`
passes its readiness checks is abstracted by `ready : Nat → Bool`, and the
`ProcessResult` captured by the final `result = self.terminate()` is the
parameter `terminalResult`.  Wall-clock elapsed time is the abstract string
`elapsed`.  Python truthiness in `max_start_attempts or
self.factory.max_start_attempts` means a per-call `0` falls back to the
factory value, modelled by `pyOrNat`.  At the raise site the code uses
`current_attempt - 1`, which after an exhausted loop equals
`start_attempts`. -/

/-- The positional and keyword arguments of one `start()` call, as captured
in a `StartDaemonCallArguments` record (`shell.py`, lines 703-712). -/
structure StartCallArgs where
  extraCliArguments : List String
  maxStartAttempts : Option Nat
  startTimeout : Option Nat
deriving DecidableEq, Repr

/-- The mutable state of a `DaemonImpl` that the claims depend on: whether
the daemon is running and the captured `_start_args_and_kwargs` record. -/
structure DaemonState where
  running : Bool
  startArgs : Option StartCallArgs
deriving DecidableEq, Repr

/-- Python `a or b` on an optional integer: `None` and `0` are falsy. -/
def pyOrNat (a : Option Nat) (b : Nat) : Nat :=
  match a with
  | some v => if v = 0 then b else v
  | none => b

/-- The log line `'Starting %s. Attempt: %d of %d'`. -/
def attemptLogLine (factory : String) (i k : Nat) : String :=
  "Starting " ++ factory ++ ". Attempt: " ++ toString i ++ " of " ++ toString k

/-- The `FactoryNotStarted` message raised after an exhausted start loop. -/
def notStartedMessage (factory : String) (attempts : Nat) (elapsed : String) :
    String :=
  "The " ++ factory ++
    " factory has failed to confirm running status after " ++
    toString attempts ++ " attempts, which took " ++ elapsed ++ " seconds"

/-- The raised `FactoryNotStarted`: its message, the attempt count it names,
and the terminal `ProcessResult` it carries. -/
structure NotStartedInfo where
  message : String
  attempts : Nat
  processResult : ProcessResult

/-- Outcome of one `DaemonImpl.start` call. -/
structure StartOutcome where
  state : DaemonState
  attemptLogs : List String
  terminatedAtEnd : Bool
  raised : Option NotStartedInfo
  returned : Option Bool

/-- The attempt loop of `DaemonImpl.start`: starting at attempt `i` with
`fuel` attempts still allowed, return the `Attempt: i of k` log lines
emitted and whether some attempt confirmed the daemon running. -/
def startAttempts (factory : String) (k : Nat) (ready : Nat → Bool) :
    Nat → Nat → List String × Bool
  | _, 0 => ([], false)
  | i, fuel + 1 =>
    if ready i then ([attemptLogLine factory i k], true)
    else
      let rest := startAttempts factory k ready (i + 1) fuel
      (attemptLogLine factory i k :: rest.1, rest.2)

/-- Embedding of `DaemonImpl.start`. -/
def DaemonImpl.start (st : DaemonState) (callArgs : StartCallArgs)
    (factoryMaxStartAttempts : Nat) (ready : Nat → Bool)
    (terminalResult : ProcessResult) (factory : String) (elapsed : String) :
    StartOutcome :=
  if st.running then
    { state := st, attemptLogs := [], terminatedAtEnd := false,
      raised := none, returned := some true }
  else
    let st1 : DaemonState := { st with startArgs := some callArgs }
    let k := pyOrNat callArgs.maxStartAttempts factoryMaxStartAttempts
    let res := startAttempts factory k ready 1 k
    if res.2 then
      { state := { st1 with running := true }, attemptLogs := res.1,
        terminatedAtEnd := false, raised := none, returned := some true }
    else
      { state := st1, attemptLogs := res.1, terminatedAtEnd := true,
        raised := some { message := notStartedMessage factory k elapsed,
                         attempts := k, processResult := terminalResult },
        returned := none }

/-- State effect of `DaemonImpl.terminate`: the daemon is no longer running;
the captured start-arguments record is left in place. -/
def DaemonImpl.terminateState (st : DaemonState) : DaemonState :=
  { st with running := false }

/-- An operation performed on a daemon: a `start()` call (with its captured
arguments, the factory's `max_start_attempts` and the per-attempt readiness
behaviour) or a `terminate()`. -/
inductive DaemonOp where
  | start (callArgs : StartCallArgs) (factoryMaxStartAttempts : Nat)
      (ready : Nat → Bool)
  | terminate

/-- State transition of one daemon operation. -/
def applyOp (st : DaemonState) : DaemonOp → DaemonState
  | .start ca fm ready =>
    (DaemonImpl.start st ca fm ready default "" "").state
  | .terminate => DaemonImpl.terminateState st

/-- State after a sequence of daemon operations. -/
def applyTrace (st : DaemonState) : List DaemonOp → DaemonState
  | [] => st
  | op :: rest => applyTrace (applyOp st op) rest

/-- Specification-side helper: update the "most recent successful start"
record across one operation — a `start()` counts as successful when it
actually started the daemon (transitioned it from not running to
running). -/
def lastSuccAcc (st : DaemonState) (acc : Option StartCallArgs) :
    DaemonOp → Option StartCallArgs
  | .start ca fm ready =>
    if st.running = false ∧
        (applyOp st (.start ca fm ready)).running = true then some ca
    else acc
  | .terminate => acc

/-- Specification-side definition, following the spec's words "the
positional/keyword arguments used for the most recent successful
`start()`": the arguments of the last `start()` operation in the trace that
actually started the daemon (was not short-circuited by the already-running
check, and transitioned it to running). -/
def lastSuccessfulStartArgs (st : DaemonState) (acc : Option StartCallArgs) :
    List DaemonOp → Option StartCallArgs
  | [] => acc
  | op :: rest =>
    lastSuccessfulStartArgs (applyOp st op) (lastSuccAcc st acc op) rest

/-! ### `Daemon.stopped` (`shell.py`, lines 1055-1144)

The context manager is embedded as a function from the daemon state and the
presence of the four optional callbacks (plus whether the caller's body
raises a `ShellUtilsException` and whether the restart succeeds) to the
ordered list of actions it performs.  The `FactoryNotRunning` check is the
first statement of the body. -/

/-- An action performed inside `Daemon.stopped`. -/
inductive StopEvent where
  | beforeStopCb
  | terminateDaemon
  | afterStopCb
  | yieldBody
  | beforeStartCb
  | startDaemon
  | afterStartCb
deriving DecidableEq, Repr

/-- Outcome of entering (and leaving) the `stopped` context manager. -/
structure StoppedOutcome where
  events : List StopEvent
  notRunningRaised : Bool
  bodyExceptionPropagated : Bool
  readStartArgs : Option StartCallArgs

/-- Embedding of `Daemon.stopped`. -/
def Daemon.stopped (st : DaemonState)
    (hasBeforeStop hasAfterStop hasBeforeStart hasAfterStart : Bool)
    (bodyRaises : Bool) (restartSucceeds : Bool) : StoppedOutcome :=
  if !st.running then
    { events := [], notRunningRaised := true,
      bodyExceptionPropagated := false, readStartArgs := none }
  else
    let readArgs := st.startArgs
    let evs1 :=
      (if hasBeforeStop then [StopEvent.beforeStopCb] else []) ++
      [StopEvent.terminateDaemon] ++
      (if hasAfterStop then [StopEvent.afterStopCb] else []) ++
      [StopEvent.yieldBody]
    if bodyRaises then
      { events := evs1, notRunningRaised := false,
        bodyExceptionPropagated := true, readStartArgs := readArgs }
    else
      let evs2 := evs1 ++
        (if hasBeforeStart then [StopEvent.beforeStartCb] else []) ++
        [StopEvent.startDaemon] ++
        (if restartSucceeds && hasAfterStart then [StopEvent.afterStartCb]
         else [])
      { events := evs2, notRunningRaised := false,
        bodyExceptionPropagated := false, readStartArgs := readArgs }

/-! ### `Daemon.run_start_checks` (`shell.py`, lines 1146-1182)

Checks are identified by numeric ids; `behavior c t` is what check `c` does
when invoked at poll tick `t` (`retTrue`: returns `True`; `retOther`:
returns any other value; `raised`: raises).  `alive t` is `is_running()` at
tick `t`.  One loop iteration advances the tick by one, and `fuel` is the
number of loop iterations the deadline still allows. -/

/-- What a start-check callback does on one invocation. -/
inductive CheckRet where
  | retTrue
  | retOther
  | raised
deriving DecidableEq, Repr

/-- The polling loop of `run_start_checks`: returns the remaining check
queue and the log entries of raising checks, or `Except.error` for the
`FactoryNotStarted` raised when the process is no longer running. -/
def runChecksLoop (behavior : Nat → Nat → CheckRet) (alive : Nat → Bool) :
    Nat → Nat → List Nat → List (Nat × Nat) →
    Except Unit (List Nat × List (Nat × Nat))
  | 0, _, cbs, logs => .ok (cbs, logs)
  | fuel + 1, t, cbs, logs =>
    if !alive t then .error ()
    else
      match cbs with
      | [] => .ok ([], logs)
      | c :: rest =>
        match behavior c t with
        | .retTrue => runChecksLoop behavior alive fuel (t + 1) rest logs
        | .retOther =>
          runChecksLoop behavior alive fuel (t + 1) (c :: rest) logs
        | .raised =>
          runChecksLoop behavior alive fuel (t + 1) (c :: rest)
            (logs ++ [(c, t)])

/-- Outcome of one `run_start_checks` invocation. -/
structure ChecksOutcome where
  result : Except Unit Bool
  remaining : List Nat
  registeredAfter : List Nat
  raisedLogs : List (Nat × Nat)

/-- Embedding of `Daemon.run_start_checks`: copy the registered check list,
poll it front-to-back until the deadline, and report whether every check
was popped.  The permanent registered list is only read, never written. -/
def run_start_checks (behavior : Nat → Nat → CheckRet) (alive : Nat → Bool)
    (registered : List Nat) (fuel : Nat) (t0 : Nat) : ChecksOutcome :=
  let cbs := registered
  if cbs.isEmpty then
    { result := .ok true, remaining := [], registeredAfter := registered,
      raisedLogs := [] }
  else
    match runChecksLoop behavior alive fuel t0 cbs [] with
    | .error e =>
      { result := .error e, remaining := [], registeredAfter := registered,
        raisedLogs := [] }
    | .ok (rem, logs) =>
      { result := .ok rem.isEmpty, remaining := rem,
        registeredAfter := registered, raisedLogs := logs }

/-! ### `Subprocess.run` (`shell.py`, lines 400-457)

```python
start_time = time.time()
self.impl._terminal_timeout = _timeout or self.timeout
timmed_out = False
try:
    self.impl.run(*args, env=env, **kwargs)
    self.impl._terminal.communicate(timeout=self.impl._terminal_timeout)
except subprocess.TimeoutExpired:
    timmed_out = True
result = self.terminate()
...
if timmed_out:
    raise FactoryTimeout(...)
...
return ProcessResult(...)
```

The child's exit instant is the parameter `exitTime`; `communicate` raises
`TimeoutExpired` exactly when an effective timeout is set and the process
outlives it.  The `ProcessResult` produced by `self.terminate()` is the
parameter `terminalResult`. -/

/-- An action performed inside `Subprocess.run`. -/
inductive RunEvent where
  | communicate
  | terminateCall
  | raiseTimeout
  | returnResult
deriving DecidableEq, Repr

/-- The raised `FactoryTimeout`: its message and the `ProcessResult` it
carries. -/
structure TimeoutInfo where
  message : String
  processResult : ProcessResult

/-- Outcome of one `Subprocess.run` call. -/
structure RunOutcome where
  events : List RunEvent
  raised : Option TimeoutInfo
  returnedNormally : Bool

/-- Python `a or b` on two optional integers (`_timeout or self.timeout`):
`None` and `0` are falsy. -/
def pyOrOptNat (a b : Option Nat) : Option Nat :=
  match a with
  | some v => if v = 0 then b else some v
  | none => b

/-- Specification-side definition, following the claim's words "the
per-call override if given, else the factory's configured default". -/
def specEffectiveTimeout (timeoutOverride factoryTimeout : Option Nat) :
    Option Nat :=
  match timeoutOverride with
  | some v => some v
  | none => factoryTimeout

/-- The `FactoryTimeout` message
`'{} Failed to run: {}; Error: Timed out after {:.2f} seconds!'`. -/
def timeoutMessage (factory cmdline elapsed : String) : String :=
  factory ++ " Failed to run: " ++ cmdline ++
    "; Error: Timed out after " ++ elapsed ++ " seconds!"

/-- Embedding of `Subprocess.run`. -/
def Subprocess.run (factory cmdline elapsed : String)
    (factoryTimeout timeoutOverride : Option Nat) (exitTime : Nat)
    (terminalResult : ProcessResult) : RunOutcome :=
  let effectiveTimeout := pyOrOptNat timeoutOverride factoryTimeout
  let timedOut := match effectiveTimeout with
    | none => false
    | some T => decide (T < exitTime)
  if timedOut then
    { events := [.communicate, .terminateCall, .raiseTimeout],
      raised := some ⟨timeoutMessage factory cmdline elapsed, terminalResult⟩,
      returnedNormally := false }
  else
    { events := [.communicate, .terminateCall, .returnResult],
      raised := none, returnedNormally := true }

/-! ## Theorems -/

/-- Claim C5: a `Callback` with captured positional defaults `A` and
captured keyword defaults `K` invoked with call-time positionals `P` and
keywords `W` calls the wrapped function with positionals `P ++ A` and with
keywords `K` overridden key-by-key with `W`; in particular
`Callback(func=f, args=(1,2), kwargs=dict(k="v"))` invoked with nothing
calls `f(1, 2, k="v")`, invoked with extra positional `0` calls
`f(0, 1, 2, k="v")`, and invoked with `k="w"` calls `f(1, 2, k="w")`. -/
theorem C5_callback_merge :
    (∀ (f : String) (A P : List Json) (K W : List (String × Json)),
      Callback.call ⟨f, some A, some K⟩ P W = .ok ⟨f, P ++ A, dictUpdate K W⟩) ∧
    Callback.call ⟨"f", some [.num 1, .num 2], some [("k", .str "v")]⟩ [] [] =
      .ok ⟨"f", [.num 1, .num 2], [("k", .str "v")]⟩ ∧
    Callback.call ⟨"f", some [.num 1, .num 2], some [("k", .str "v")]⟩
        [.num 0] [] =
      .ok ⟨"f", [.num 0, .num 1, .num 2], [("k", .str "v")]⟩ ∧
    Callback.call ⟨"f", some [.num 1, .num 2], some [("k", .str "v")]⟩ []
        [("k", .str "w")] =
      .ok ⟨"f", [.num 1, .num 2], [("k", .str "w")]⟩ :=
  ⟨fun _ _ _ _ _ => rfl, rfl, rfl, rfl⟩

/-- Claim C10: a `Callback` constructed with `kwargs` left as its default
`None` raises in the keyword-merge step (`None.update(...)`) before the
wrapped function is ever called, and an invocation can only reach the
wrapped function when `kwargs` was supplied as a dictionary. -/
theorem C10_callback_requires_kwargs :
    (∀ (f : String) (A : Option (List Json)) (P : List Json)
        (W : List (String × Json)),
      Callback.call ⟨f, A, none⟩ P W = .error ()) ∧
    (∀ (cb : Callback) (P : List Json) (W : List (String × Json))
        (r : CallRecord),
      Callback.call cb P W = .ok r → ∃ K, cb.kwargs = some K) := by
  constructor
  · intro f A P W
    rfl
  · intro cb P W r h
    cases hk : cb.kwargs with
    | none => simp [Callback.call, hk] at h
    | some K => exact ⟨K, rfl⟩

/-- Witness for C10 at concrete inputs: with `kwargs=None` the call raises,
and a call that reaches the wrapped function had a dictionary `kwargs`. -/
theorem C10_callback_requires_kwargs_witness :
    Callback.call ⟨"f", none, none⟩ [] [] = .error () ∧
    ∃ K, (Callback.mk "f" none (some [("k", Json.str "v")])).kwargs = some K :=
  ⟨C10_callback_requires_kwargs.1 "f" none [] [],
   C10_callback_requires_kwargs.2 ⟨"f", none, some [("k", Json.str "v")]⟩
     [] [] ⟨"f", [], [("k", Json.str "v")]⟩ rfl⟩

/-- Claim C6 as stated is false: `stdout = "5"` parses as the JSON number
`5`, so the claim asserts `data = 5` (no narrowing, since `dataKey = "k"`
is not present in it), yet the code evaluates `"k" in 5`, which raises a
`TypeError` out of the construction. -/
theorem C6_default_data_counterexample :
    parseNum5 "5" = some (.num 5) ∧
    default_data parseNum5 "5" (some "k") = .error () ∧
    ProcessResult.construct parseNum5 0 "5" "" none (some "k") = .error () :=
  ⟨rfl, rfl, rfl⟩

/-- Claim C6, amended: for a `ProcessResult` constructed without a `data`
override, if `stdout` strips to a non-empty string that parses as JSON,
`data` equals the parsed value, narrowed to `parsed[dataKey]` when the
parsed value is truthy, `dataKey` is a non-empty string and the Python
membership test `dataKey in parsed` succeeds with true on a dictionary;
when the parsed value is truthy and not a dictionary and `dataKey` is a
non-empty string, the membership test or the subsequent indexing raises a
`TypeError` that propagates; if `stdout` is empty or not valid JSON,
`data` is `None` and construction never raises. -/
theorem C6_default_data_amended (parse : String → Option Json)
    (stdout : String) (key : Option String) :
    (pyStrip stdout = "" → default_data parse stdout key = .ok none) ∧
    (pyStrip stdout ≠ "" → parse (pyStrip (pyStrip stdout)) = none →
      default_data parse stdout key = .ok none) ∧
    (∀ j, pyStrip stdout ≠ "" → parse (pyStrip (pyStrip stdout)) = some j →
      j.truthy = false → default_data parse stdout key = .ok (some j)) ∧
    (∀ j, pyStrip stdout ≠ "" → parse (pyStrip (pyStrip stdout)) = some j → key = none →
      default_data parse stdout key = .ok (some j)) ∧
    (∀ j, pyStrip stdout ≠ "" → parse (pyStrip (pyStrip stdout)) = some j →
      key = some "" → default_data parse stdout key = .ok (some j)) ∧
    (∀ j k, pyStrip stdout ≠ "" → parse (pyStrip (pyStrip stdout)) = some j →
      j.truthy = true → key = some k → k ≠ "" → j.hasMember k = .ok false →
      default_data parse stdout key = .ok (some j)) ∧
    (∀ j k v, pyStrip stdout ≠ "" → parse (pyStrip (pyStrip stdout)) = some j →
      j.truthy = true → key = some k → k ≠ "" → j.hasMember k = .ok true →
      j.subscript k = .ok v →
      default_data parse stdout key = .ok (some v)) ∧
    (∀ j k, pyStrip stdout ≠ "" → parse (pyStrip (pyStrip stdout)) = some j →
      j.truthy = true → key = some k → k ≠ "" → j.hasMember k = .ok true →
      j.subscript k = .error () →
      default_data parse stdout key = .error ()) ∧
    (∀ j k, pyStrip stdout ≠ "" → parse (pyStrip (pyStrip stdout)) = some j →
      j.truthy = true → key = some k → k ≠ "" → j.hasMember k = .error () →
      default_data parse stdout key = .error ()) ∧
    (∀ kvs k v, pyStrip stdout ≠ "" →
      parse (pyStrip (pyStrip stdout)) = some (.obj kvs) →
      (Json.obj kvs).truthy = true → key = some k → k ≠ "" →
      dictLookup kvs k = some v →
      default_data parse stdout key = .ok (some v)) := by
  refine ⟨?_, ?_, ?_, ?_, ?_, ?_, ?_, ?_, ?_, ?_⟩
  · intro h
    simp [default_data, h]
  · intro h hp
    simp [default_data, h, hp]
  · intro j h hp ht
    simp [default_data, h, hp, ht]
  · intro j h hp hk
    by_cases ht : j.truthy <;> simp [default_data, h, hp, hk, ht]
  · intro j h hp hk
    by_cases ht : j.truthy <;> simp [default_data, h, hp, hk, ht]
  · intro j k h hp ht hk hkne hm
    simp [default_data, h, hp, ht, hk, hkne, hm]
  · intro j k v h hp ht hk hkne hm hs
    simp [default_data, h, hp, ht, hk, hkne, hm, hs]
  · intro j k h hp ht hk hkne hm hs
    simp [default_data, h, hp, ht, hk, hkne, hm, hs]
  · intro j k h hp ht hk hkne hm
    simp [default_data, h, hp, ht, hk, hkne, hm]
  · intro kvs k v h hp ht hk hkne hl
    simp [default_data, h, hp, ht, hk, hkne, Json.hasMember, Json.subscript, hl]

/-- Witness for the amended C6 at concrete inputs: a JSON object with the
key present is narrowed to that key's value, and non-JSON stdout yields
`None`. -/
theorem C6_default_data_amended_witness :
    default_data parseObjA "\x7b\"a\": 1\x7d" (some "a") =
      .ok (some (.num 1)) ∧
    default_data parseObjA "not json" (some "a") = .ok none := by
  constructor
  · exact (C6_default_data_amended parseObjA "\x7b\"a\": 1\x7d"
      (some "a")).2.2.2.2.2.2.2.2.2 [("a", Json.num 1)] "a" (Json.num 1)
      (by decide) rfl rfl rfl (by decide) rfl
  · exact (C6_default_data_amended parseObjA "not json"
      (some "a")).2.1 (by decide) rfl

/-- Claim C7: `str(ProcessResult)` is a multi-line report made, in order,
of the class-name header, an optional `Command Line` line (only when
`cmdline` is set), the `Returncode` line, a `Process Output:` section with
stdout then stderr each fenced by the literal STDOUT/STDERR marker lines
and included only when non-empty after stripping, and a `Parsed JSON Data:`
section of indented pretty-printed lines only when `data` is truthy; and
`str(ProcessResult(returncode=0, stdout="", stderr=""))` is exactly the
header plus the `Returncode: 0` line. -/
theorem C7_processresult_render (pf : Json → List String)
    (r : ProcessResult) :
    (∃ cmdPart rcPart outHeader stdoutPart stderrPart dataPart,
      ProcessResult.render pf r =
        "ProcessResult" ++ cmdPart ++ rcPart ++ outHeader ++ stdoutPart ++
          stderrPart ++ dataPart ++ "\n" ∧
      (r.cmdline = none → cmdPart = "") ∧
      (∀ c, r.cmdline = some c → c.isEmpty = false →
        cmdPart = "\n Command Line: " ++ pyStrListRepr c) ∧
      rcPart = "\n Returncode: " ++ toString r.returncode ∧
      (pyStrip r.stdout = "" → pyStrip r.stderr = "" →
        outHeader = "" ∧ stdoutPart = "" ∧ stderrPart = "") ∧
      (¬(pyStrip r.stdout = "" ∧ pyStrip r.stderr = "") →
        outHeader = "\n Process Output:") ∧
      (pyStrip r.stdout ≠ "" →
        stdoutPart = "\n   >>>>> STDOUT >>>>>\n" ++ r.stdout ++
          "\n   <<<<< STDOUT <<<<<") ∧
      (pyStrip r.stderr ≠ "" →
        stderrPart = "\n   >>>>> STDERR >>>>>\n" ++ r.stderr ++
          "\n   <<<<< STDERR <<<<<") ∧
      (r.data = none → dataPart = "") ∧
      (∀ d, r.data = some d → d.truthy = false → dataPart = "") ∧
      (∀ d, r.data = some d → d.truthy = true →
        dataPart = "\n Parsed JSON Data:\n" ++
          String.intercalate "\n" ((pf d).map (fun line => "   " ++ line)))) ∧
    ProcessResult.render pf ⟨0, "", "", none, none, none⟩ =
      "ProcessResult\n Returncode: 0\n" := by
  constructor
  · refine ⟨(match r.cmdline with
        | some c => if !c.isEmpty then "\n Command Line: " ++ pyStrListRepr c
          else ""
        | none => ""),
      "\n Returncode: " ++ toString r.returncode,
      (if pyStrip r.stdout ≠ "" || pyStrip r.stderr ≠ ""
        then "\n Process Output:" else ""),
      (if pyStrip r.stdout ≠ "" then
        "\n   >>>>> STDOUT >>>>>\n" ++ r.stdout ++ "\n   <<<<< STDOUT <<<<<"
        else ""),
      (if pyStrip r.stderr ≠ "" then
        "\n   >>>>> STDERR >>>>>\n" ++ r.stderr ++ "\n   <<<<< STDERR <<<<<"
        else ""),
      (match r.data with
        | some d =>
          if d.truthy then
            "\n Parsed JSON Data:\n" ++
              String.intercalate "\n" ((pf d).map (fun line => "   " ++ line))
          else ""
        | none => ""),
      rfl, ?_, ?_, rfl, ?_, ?_, ?_, ?_, ?_, ?_, ?_⟩
    · intro h
      simp [h]
    · intro c hc hne
      simp [hc, hne]
    · intro h1 h2
      simp [h1, h2]
    · intro h
      rcases not_and_or.mp h with h1 | h1 <;> simp [h1]
    · intro h
      simp [h]
    · intro h
      simp [h]
    · intro h
      simp [h]
    · intro d hd ht
      simp [hd, ht]
    · intro d hd ht
      simp [hd, ht]
  · rfl

/-- Witness for C7 at a concrete input: the empty-stream result renders as
exactly the header and the returncode line. -/
theorem C7_processresult_render_witness :
    ProcessResult.render (fun _ => []) ⟨0, "", "", none, none, none⟩ =
      "ProcessResult\n Returncode: 0\n" :=
  (C7_processresult_render (fun _ => []) ⟨0, "", "", none, none, none⟩).2

/-- Pid-deduplication keeps at most one process per pid: the pids of the
deduplicated list are nodup and disjoint from the already-seen pids. -/
theorem dedupByPid_nodup {P : Type} (pid : P → Nat) :
    ∀ (l : List P) (seen : List Nat),
      ((dedupByPid pid l seen).map pid).Nodup ∧
      ∀ x ∈ dedupByPid pid l seen, pid x ∉ seen := by
  intro l
  induction l with
  | nil =>
    intro seen
    simp [dedupByPid]
  | cons p rest ih =>
    intro seen
    have h2 := ih (seen ++ [pid p])
    by_cases hs : pid p ∈ seen
    · constructor
      · simpa [dedupByPid, hs] using h2.1
      · intro x hx
        have hx2 : x ∈ dedupByPid pid rest (seen ++ [pid p]) := by
          simpa [dedupByPid, hs] using hx
        have h3 := h2.2 x hx2
        simp only [List.mem_append] at h3
        exact fun hmem => h3 (Or.inl hmem)
    · have hd : dedupByPid pid (p :: rest) seen =
          p :: dedupByPid pid rest (seen ++ [pid p]) := by
        simp [dedupByPid, hs]
      constructor
      · rw [hd, List.map_cons, List.nodup_cons]
        constructor
        · intro hmem
          rcases List.mem_map.mp hmem with ⟨y, hy, hpy⟩
          have h3 := h2.2 y hy
          simp only [List.mem_append, List.mem_singleton] at h3
          exact h3 (Or.inr hpy)
        · exact h2.1
      · intro x hx
        rw [hd] at hx
        rcases List.mem_cons.mp hx with hx1 | hx1
        · subst hx1
          exact hs
        · have h3 := h2.2 x hx1
          simp only [List.mem_append] at h3
          exact fun hmem => h3 (Or.inl hmem)

/-- Claim C2: `terminate_process_list` deduplicates by pid and applies at
most three escalating rounds — round 1 with the caller's flags, round 2
(only if processes remain) with `kill = (slow_stop is False)`, round 3
(only if processes still remain) with an unconditional kill and no slow
stop — waiting up to 5 seconds after each round, and if processes survive
all three rounds it warns and returns normally. -/
theorem C2_terminate_process_list_rounds {P : Type} (pid : P → Nat)
    (step : Bool → Bool → List P → List P) (l : List P)
    (kill slow_stop : Bool) :
    ((dedupByPid pid l []).map pid).Nodup ∧
    (terminate_process_list pid step l kill slow_stop).rounds.length ≤ 3 ∧
    (terminate_process_list pid step l kill slow_stop).rounds.head? =
      some ⟨kill, slow_stop, 5⟩ ∧
    (∀ r ∈ (terminate_process_list pid step l kill slow_stop).rounds,
      r.waitTimeout = 5) ∧
    (step kill slow_stop (dedupByPid pid l []) = [] →
      terminate_process_list pid step l kill slow_stop =
        ⟨[⟨kill, slow_stop, 5⟩], [], false⟩) ∧
    (step kill slow_stop (dedupByPid pid l []) ≠ [] →
      step (!slow_stop) slow_stop
          (step kill slow_stop (dedupByPid pid l [])) = [] →
      terminate_process_list pid step l kill slow_stop =
        ⟨[⟨kill, slow_stop, 5⟩, ⟨!slow_stop, slow_stop, 5⟩], [], false⟩) ∧
    (step kill slow_stop (dedupByPid pid l []) ≠ [] →
      step (!slow_stop) slow_stop
          (step kill slow_stop (dedupByPid pid l [])) ≠ [] →
      terminate_process_list pid step l kill slow_stop =
        ⟨[⟨kill, slow_stop, 5⟩, ⟨!slow_stop, slow_stop, 5⟩,
            ⟨true, false, 5⟩],
          step true false (step (!slow_stop) slow_stop
            (step kill slow_stop (dedupByPid pid l []))),
          !(step true false (step (!slow_stop) slow_stop
            (step kill slow_stop (dedupByPid pid l [])))).isEmpty⟩) ∧
    ((terminate_process_list pid step l kill slow_stop).warned = true ↔
      (terminate_process_list pid step l kill slow_stop).rounds.length = 3 ∧
      (terminate_process_list pid step l kill slow_stop).remaining ≠ []) := by
  by_cases h1 : step kill slow_stop (dedupByPid pid l []) = []
  · have ho : terminate_process_list pid step l kill slow_stop =
        ⟨[⟨kill, slow_stop, 5⟩], [], false⟩ := by
      simp [terminate_process_list, h1]
    refine ⟨(dedupByPid_nodup pid l []).1, by simp [ho], by simp [ho], ?_,
      fun _ => ho, fun hc _ => absurd h1 hc, fun hc _ => absurd h1 hc,
      by simp [ho]⟩
    rw [ho]
    rintro r hr
    simp only [List.mem_singleton] at hr
    subst hr
    rfl
  · by_cases h2 : step (!slow_stop) slow_stop
        (step kill slow_stop (dedupByPid pid l [])) = []
    · have ho : terminate_process_list pid step l kill slow_stop =
          ⟨[⟨kill, slow_stop, 5⟩, ⟨!slow_stop, slow_stop, 5⟩], [],
            false⟩ := by
        simp [terminate_process_list, h1, h2]
      refine ⟨(dedupByPid_nodup pid l []).1, by simp [ho], by simp [ho], ?_,
        fun hc => absurd hc h1, fun _ _ => ho, fun _ hc => absurd h2 hc,
        by simp [ho]⟩
      rw [ho]
      rintro r hr
      simp only [List.mem_cons, List.mem_singleton] at hr
      rcases hr with rfl | rfl | hr
      · rfl
      · rfl
      · exact absurd hr (List.not_mem_nil r)
    · have ho : terminate_process_list pid step l kill slow_stop =
          ⟨[⟨kill, slow_stop, 5⟩, ⟨!slow_stop, slow_stop, 5⟩,
              ⟨true, false, 5⟩],
            step true false (step (!slow_stop) slow_stop
              (step kill slow_stop (dedupByPid pid l []))),
            !(step true false (step (!slow_stop) slow_stop
              (step kill slow_stop (dedupByPid pid l [])))).isEmpty⟩ := by
        simp [terminate_process_list, h1, h2]
      refine ⟨(dedupByPid_nodup pid l []).1, by simp [ho], by simp [ho], ?_,
        fun hc => absurd hc h1, fun _ hc => absurd hc h2, fun _ _ => ho, ?_⟩
      · rw [ho]
        rintro r hr
        simp only [List.mem_cons, List.mem_singleton] at hr
        rcases hr with rfl | rfl | rfl | hr
        · rfl
        · rfl
        · rfl
        · exact absurd hr (List.not_mem_nil r)
      · rw [ho]
        simp [List.isEmpty_iff]

/-- Witness for C2 at a concrete input: with a step that terminates
everything, only round 1 runs, nothing remains and no warning is logged. -/
theorem C2_terminate_process_list_rounds_witness :
    ((dedupByPid (fun n : Nat => n) [1, 1, 2] []).map
      (fun n : Nat => n)).Nodup ∧
    terminate_process_list (fun n : Nat => n) (fun _ _ _ => [])
      [1, 1, 2] false true = ⟨[⟨false, true, 5⟩], [], false⟩ := by
  have h := C2_terminate_process_list_rounds (fun n : Nat => n)
    (fun _ _ _ => []) [1, 1, 2] false true
  exact ⟨h.1, h.2.2.2.2.1 rfl⟩

/-- Claim C8: entering `stopped(...)` on a daemon that is not running
raises `FactoryNotRunning` before invoking any of the four optional
callbacks and before any termination or restart action. -/
theorem C8_stopped_not_running (st : DaemonState)
    (hasBeforeStop hasAfterStop hasBeforeStart hasAfterStart : Bool)
    (bodyRaises restartSucceeds : Bool) (h : st.running = false) :
    Daemon.stopped st hasBeforeStop hasAfterStop hasBeforeStart hasAfterStart
        bodyRaises restartSucceeds =
      { events := [], notRunningRaised := true,
        bodyExceptionPropagated := false, readStartArgs := none } := by
  simp [Daemon.stopped, h]

/-- Witness for C8 at a concrete input: a stopped daemon with all four
callbacks supplied performs no action and raises the not-running error. -/
theorem C8_stopped_not_running_witness :
    Daemon.stopped ⟨false, none⟩ true true true true false true =
      { events := [], notRunningRaised := true,
        bodyExceptionPropagated := false, readStartArgs := none } :=
  C8_stopped_not_running ⟨false, none⟩ true true true true false true rfl

/-- When every attempt fails its readiness checks, the start loop emits one
`Attempt: i of k` log line for each attempt number from `i` up, and never
reports success. -/
theorem startAttempts_allFail (factory : String) (k : Nat)
    (ready : Nat → Bool) (hfail : ∀ i, ready i = false) :
    ∀ (fuel i : Nat), startAttempts factory k ready i fuel =
      ((List.range' i fuel).map (fun j => attemptLogLine factory j k),
        false) := by
  intro fuel
  induction fuel with
  | zero =>
    intro i
    simp [startAttempts]
  | succ n ih =>
    intro i
    simp [startAttempts, hfail i, ih (i + 1), List.range']

/-- Claim C1: a `start()` on a non-running daemon whose effective attempt
count is `k` and in which every attempt fails its readiness checks logs
exactly `k` `Attempt: i of k` lines (for `i = 1..k`), terminates capturing
a terminal `ProcessResult`, returns no success value, and raises
`FactoryNotStarted` whose message names the factory, the attempt count `k`
and the elapsed seconds, carrying that terminal `ProcessResult`. -/
theorem C1_daemon_start_exhausted (st : DaemonState) (ca : StartCallArgs)
    (fm : Nat) (ready : Nat → Bool) (tr : ProcessResult)
    (factory elapsed : String) (k : Nat) (hrun : st.running = false)
    (hk : pyOrNat ca.maxStartAttempts fm = k)
    (hfail : ∀ i, ready i = false) :
    (DaemonImpl.start st ca fm ready tr factory elapsed).attemptLogs =
      (List.range' 1 k).map (fun i => attemptLogLine factory i k) ∧
    (DaemonImpl.start st ca fm ready tr factory elapsed).attemptLogs.length
      = k ∧
    (DaemonImpl.start st ca fm ready tr factory elapsed).terminatedAtEnd =
      true ∧
    (DaemonImpl.start st ca fm ready tr factory elapsed).returned = none ∧
    (DaemonImpl.start st ca fm ready tr factory elapsed).raised =
      some ⟨notStartedMessage factory k elapsed, k, tr⟩ ∧
    (DaemonImpl.start st ca fm ready tr factory elapsed).state =
      { st with startArgs := some ca } := by
  have hsa := startAttempts_allFail factory k ready hfail k 1
  simp [DaemonImpl.start, hrun, hk, hsa]

/-- Witness for C1 at a concrete input: three always-failing attempts log
`Attempt: 1 of 3` through `Attempt: 3 of 3` and raise the not-started
error naming 3 attempts and carrying the terminal result. -/
theorem C1_daemon_start_exhausted_witness :
    (DaemonImpl.start ⟨false, none⟩ ⟨[], none, none⟩ 3 (fun _ => false)
        ⟨0, "", "", none, none, none⟩ "F" "1.23").attemptLogs =
      [attemptLogLine "F" 1 3, attemptLogLine "F" 2 3,
        attemptLogLine "F" 3 3] ∧
    (DaemonImpl.start ⟨false, none⟩ ⟨[], none, none⟩ 3 (fun _ => false)
        ⟨0, "", "", none, none, none⟩ "F" "1.23").raised =
      some ⟨notStartedMessage "F" 3 "1.23", 3,
        ⟨0, "", "", none, none, none⟩⟩ := by
  have h := C1_daemon_start_exhausted ⟨false, none⟩ ⟨[], none, none⟩ 3
    (fun _ => false) ⟨0, "", "", none, none, none⟩ "F" "1.23" 3 rfl rfl
    (fun _ => rfl)
  exact ⟨h.1.trans rfl, h.2.2.2.2.1⟩

/-- Invariant behind claim C9: whenever the daemon is running, the stored
`_start_args_and_kwargs` record equals the arguments of the most recent
`start()` that actually started the daemon — even though the code writes
the record eagerly at the top of every attempted `start()`. -/
theorem start_record_invariant :
    ∀ (trace : List DaemonOp) (st : DaemonState)
      (acc : Option StartCallArgs),
      (st.running = true → st.startArgs = acc) →
      (applyTrace st trace).running = true →
      (applyTrace st trace).startArgs =
        lastSuccessfulStartArgs st acc trace := by
  intro trace
  induction trace with
  | nil =>
    intro st acc hinv hrun
    simpa [applyTrace, lastSuccessfulStartArgs] using hinv hrun
  | cons op rest ih =>
    intro st acc hinv hrun
    rw [show applyTrace st (op :: rest) =
      applyTrace (applyOp st op) rest from rfl] at hrun ⊢
    rw [show lastSuccessfulStartArgs st acc (op :: rest) =
      lastSuccessfulStartArgs (applyOp st op) (lastSuccAcc st acc op) rest
      from rfl]
    apply ih _ _ _ hrun
    obtain ⟨sr, sa⟩ := st
    cases op with
    | terminate =>
      intro h2
      simp [applyOp, DaemonImpl.terminateState] at h2
    | start ca fm ready =>
      intro h2
      cases sr with
      | true =>
        have hst2 : applyOp ⟨true, sa⟩ (.start ca fm ready) = ⟨true, sa⟩ := by
          simp [applyOp, DaemonImpl.start]
        rw [hst2]
        simp [lastSuccAcc, hst2]
        exact hinv rfl
      | false =>
        by_cases hres : (startAttempts ""
            (pyOrNat ca.maxStartAttempts fm) ready 1
            (pyOrNat ca.maxStartAttempts fm)).2
        · have hst2 : applyOp ⟨false, sa⟩ (.start ca fm ready) =
              ⟨true, some ca⟩ := by
            simp [applyOp, DaemonImpl.start, hres]
          rw [hst2]
          simp only [lastSuccAcc, hst2]
          simp
        · have hst2 : applyOp ⟨false, sa⟩ (.start ca fm ready) =
              ⟨false, some ca⟩ := by
            simp [applyOp, DaemonImpl.start, hres]
          rw [hst2] at h2
          simp at h2

/-- Claim C9: the `StartDaemonCallArguments` record that `stopped()` reads
to restart the daemon holds the arguments of the most recent `start()`
that succeeded (a `start()` on an already-running daemon performs no start
and leaves the record untouched), so a stop-then-restart cycle reproduces
the invocation of the last start that succeeded. -/
theorem C9_stopped_restart_args (trace : List DaemonOp)
    (hasBeforeStop hasAfterStop hasBeforeStart hasAfterStart : Bool)
    (bodyRaises restartSucceeds : Bool)
    (hrun : (applyTrace ⟨false, none⟩ trace).running = true) :
    (Daemon.stopped (applyTrace ⟨false, none⟩ trace) hasBeforeStop
        hasAfterStop hasBeforeStart hasAfterStart bodyRaises
        restartSucceeds).readStartArgs =
      lastSuccessfulStartArgs ⟨false, none⟩ none trace ∧
    (applyTrace ⟨false, none⟩ trace).startArgs =
      lastSuccessfulStartArgs ⟨false, none⟩ none trace := by
  have h2 := start_record_invariant trace ⟨false, none⟩ none
    (by intro h; simp at h) hrun
  refine ⟨?_, h2⟩
  have hread : (Daemon.stopped (applyTrace ⟨false, none⟩ trace)
      hasBeforeStop hasAfterStop hasBeforeStart hasAfterStart bodyRaises
      restartSucceeds).readStartArgs =
      (applyTrace ⟨false, none⟩ trace).startArgs := by
    by_cases hb : bodyRaises <;> simp [Daemon.stopped, hrun, hb]
  rw [hread]
  exact h2

/-- Witness for C9 at a concrete input: after one successful `start()` the
record read by `stopped()` is that start's arguments. -/
theorem C9_stopped_restart_args_witness :
    (Daemon.stopped (applyTrace ⟨false, none⟩
        [DaemonOp.start ⟨["x"], none, none⟩ 3 (fun _ => true)])
        false false false false false true).readStartArgs =
      lastSuccessfulStartArgs ⟨false, none⟩ none
        [DaemonOp.start ⟨["x"], none, none⟩ 3 (fun _ => true)] :=
  (C9_stopped_restart_args
    [DaemonOp.start ⟨["x"], none, none⟩ 3 (fun _ => true)]
    false false false false false true rfl).1

/-- When the process stays alive, the `run_start_checks` polling loop never
raises. -/
theorem runChecksLoop_ok (behavior : Nat → Nat → CheckRet)
    (alive : Nat → Bool) (halive : ∀ t, alive t = true) :
    ∀ (fuel t : Nat) (cbs : List Nat) (logs : List (Nat × Nat)),
      ∃ p, runChecksLoop behavior alive fuel t cbs logs = .ok p := by
  intro fuel
  induction fuel with
  | zero =>
    intro t cbs logs
    exact ⟨(cbs, logs), rfl⟩
  | succ n ih =>
    intro t cbs logs
    cases cbs with
    | nil => exact ⟨([], logs), by simp [runChecksLoop, halive t]⟩
    | cons c rest =>
      cases hb : behavior c t with
      | retTrue =>
        obtain ⟨p, hp⟩ := ih (t + 1) rest logs
        exact ⟨p, by simp [runChecksLoop, halive t, hb, hp]⟩
      | retOther =>
        obtain ⟨p, hp⟩ := ih (t + 1) (c :: rest) logs
        exact ⟨p, by simp [runChecksLoop, halive t, hb, hp]⟩
      | raised =>
        obtain ⟨p, hp⟩ := ih (t + 1) (c :: rest) (logs ++ [(c, t)])
        exact ⟨p, by simp [runChecksLoop, halive t, hb, hp]⟩

/-- Claim C4: `run_start_checks` with a live process consults a
per-invocation copy of the registered checks front-to-back, pops the head
only when it returns exactly `True`, logs and retries (without popping or
aborting) a check that raises, returns true iff every check was popped
before the deadline, and leaves the permanent registered list unchanged. -/
theorem C4_run_start_checks (behavior : Nat → Nat → CheckRet)
    (alive : Nat → Bool) (registered : List Nat) (fuel t0 : Nat)
    (halive : ∀ t, alive t = true) :
    (run_start_checks behavior alive registered fuel t0).registeredAfter =
      registered ∧
    (∃ b, (run_start_checks behavior alive registered fuel t0).result =
      .ok b ∧ (b = true ↔
        (run_start_checks behavior alive registered fuel t0).remaining =
          [])) ∧
    (∀ f t c rest logs, behavior c t = .retTrue →
      runChecksLoop behavior alive (f + 1) t (c :: rest) logs =
        runChecksLoop behavior alive f (t + 1) rest logs) ∧
    (∀ f t c rest logs, behavior c t = .retOther →
      runChecksLoop behavior alive (f + 1) t (c :: rest) logs =
        runChecksLoop behavior alive f (t + 1) (c :: rest) logs) ∧
    (∀ f t c rest logs, behavior c t = .raised →
      runChecksLoop behavior alive (f + 1) t (c :: rest) logs =
        runChecksLoop behavior alive f (t + 1) (c :: rest)
          (logs ++ [(c, t)])) := by
  refine ⟨?_, ?_, ?_, ?_, ?_⟩
  · by_cases h : registered.isEmpty
    · simp [run_start_checks, h]
    · obtain ⟨⟨rem, logs⟩, hp⟩ :=
        runChecksLoop_ok behavior alive halive fuel t0 registered []
      simp [run_start_checks, h, hp]
  · by_cases h : registered.isEmpty
    · exact ⟨true, by simp [run_start_checks, h], by
        simp [run_start_checks, h]⟩
    · obtain ⟨⟨rem, logs⟩, hp⟩ :=
        runChecksLoop_ok behavior alive halive fuel t0 registered []
      refine ⟨rem.isEmpty, by simp [run_start_checks, h, hp], ?_⟩
      simp [run_start_checks, h, hp, List.isEmpty_iff]
  · intro f t c rest logs hb
    simp [runChecksLoop, halive t, hb]
  · intro f t c rest logs hb
    simp [runChecksLoop, halive t, hb]
  · intro f t c rest logs hb
    simp [runChecksLoop, halive t, hb]

/-- Witness for C4 at a concrete input: two checks that both immediately
return `True` are popped and the invocation reports readiness. -/
theorem C4_run_start_checks_witness :
    (run_start_checks (fun _ _ => CheckRet.retTrue) (fun _ => true)
      [0, 1] 5 0).registeredAfter = [0, 1] ∧
    ∃ b, (run_start_checks (fun _ _ => CheckRet.retTrue) (fun _ => true)
      [0, 1] 5 0).result = .ok b ∧
      (b = true ↔ (run_start_checks (fun _ _ => CheckRet.retTrue)
        (fun _ => true) [0, 1] 5 0).remaining = []) := by
  have h := C4_run_start_checks (fun _ _ => CheckRet.retTrue)
    (fun _ => true) [0, 1] 5 0 (fun _ => rfl)
  exact ⟨h.1, h.2.1⟩

/-- Claim C3 as stated is false: with a per-call timeout override of `0`
and a factory default of `10`, the claim's effective timeout is `0`, so a
process exiting at time `5` should according to the claim time out and
raise `FactoryTimeout` — but the code computes `_timeout or self.timeout`,
a falsy `0` falls back to `10`, and the call returns normally without
raising. -/
theorem C3_run_timeout_counterexample :
    specEffectiveTimeout (some 0) (some 10) = some 0 ∧ (0 : Nat) < 5 ∧
    (Subprocess.run "Factory" "cmd" "5.00" (some 10) (some 0) 5
        ⟨0, "", "", none, none, none⟩).raised = none ∧
    (Subprocess.run "Factory" "cmd" "5.00" (some 10) (some 0) 5
        ⟨0, "", "", none, none, none⟩).returnedNormally = true :=
  ⟨rfl, by decide, rfl, rfl⟩

/-- Claim C3, amended: with the effective timeout computed as the code
does (`_timeout or self.timeout`: the per-call override if given and
non-zero, else the factory default), a run whose process outlives the
effective timeout performs `terminate()` before raising `FactoryTimeout`
carrying the terminal `ProcessResult` and a message naming the factory,
the cmdline and the elapsed seconds; and when no timeout occurs (or no
effective timeout is set) no `FactoryTimeout` is raised. -/
theorem C3_run_timeout_amended (factory cmdline elapsed : String)
    (factoryTimeout timeoutOverride : Option Nat) (exitTime : Nat)
    (tr : ProcessResult) :
    (∀ T, pyOrOptNat timeoutOverride factoryTimeout = some T →
      T < exitTime →
      Subprocess.run factory cmdline elapsed factoryTimeout timeoutOverride
          exitTime tr =
        ⟨[.communicate, .terminateCall, .raiseTimeout],
          some ⟨timeoutMessage factory cmdline elapsed, tr⟩, false⟩) ∧
    (pyOrOptNat timeoutOverride factoryTimeout = none →
      Subprocess.run factory cmdline elapsed factoryTimeout timeoutOverride
          exitTime tr =
        ⟨[.communicate, .terminateCall, .returnResult], none, true⟩) ∧
    (∀ T, pyOrOptNat timeoutOverride factoryTimeout = some T →
      exitTime ≤ T →
      Subprocess.run factory cmdline elapsed factoryTimeout timeoutOverride
          exitTime tr =
        ⟨[.communicate, .terminateCall, .returnResult], none, true⟩) := by
  refine ⟨?_, ?_, ?_⟩
  · intro T hT hlt
    simp [Subprocess.run, hT, hlt]
  · intro hT
    simp [Subprocess.run, hT]
  · intro T hT hle
    have hnl : ¬(T < exitTime) := Nat.not_lt.mpr hle
    simp [Subprocess.run, hT, hnl]

/-- Witness for the amended C3 at concrete inputs: an effective timeout of
2 against an exit at 5 terminates then raises; no effective timeout never
raises. -/
theorem C3_run_timeout_amended_witness :
    Subprocess.run "F" "c" "9.00" none (some 2) 5
        ⟨1, "", "", none, none, none⟩ =
      ⟨[.communicate, .terminateCall, .raiseTimeout],
        some ⟨timeoutMessage "F" "c" "9.00", ⟨1, "", "", none, none, none⟩⟩,
        false⟩ ∧
    Subprocess.run "F" "c" "1.00" none none 5
        ⟨0, "", "", none, none, none⟩ =
      ⟨[.communicate, .terminateCall, .returnResult], none, true⟩ := by
  have h := C3_run_timeout_amended "F" "c" "9.00" none (some 2) 5
    ⟨1, "", "", none, none, none⟩
  have h2 := C3_run_timeout_amended "F" "c" "1.00" none none 5
    ⟨0, "", "", none, none, none⟩
  exact ⟨h.1 2 rfl (by decide), h2.2.1 rfl⟩

end PSU
